import Mathlib

/-!
Shallow embedding of `src/app.py` (TTS_Validation audio-quality dashboard).

The script uploads an audio file to a temporary path, optionally runs four
metric runners (SRMR, SigMOS, VQScore, WVMOS) sequentially, joins the scores
with a threshold table and a description table, computes PASS/FAIL per row,
shows summary counts, and offers the report table as a CSV download.

Modelling conventions:
* Python floats are modelled as rationals (ℚ); a possibly-`None` score is
  `Option ℚ`.
* A runner either returns a value or raises; this is `Except String v`
  where the `String` is the exception message.
* Python's `score >= threshold` raises `TypeError` when `threshold` is
  `None` (line 124 of app.py, with `threshold = THRESHOLDS.get(name)`);
  this is modelled by `statusOf` returning `Except.error`.
* The Streamlit script run is modelled by `runScript`, a pure function of
  whether a file is uploaded, whether the Run Analysis button was pressed,
  the runner outcomes, the threshold table, and the temporary path chosen
  for the upload.  Its result records what the page ends up showing and
  whether the temporary file still exists on disk afterwards.
-/

namespace TTSValidation

/-- `config.THRESHOLDS`: mapping from metric name to minimum passing score
(floats in the source).  Modelled as an association list; `dict.get` is
`lookupThreshold`. -/
abbrev Thresholds := List (String × ℚ)

/-- `THRESHOLDS.get(metric_name)` (app.py line 122): `none` when the metric
name is absent from the mapping. -/
def lookupThreshold (ths : Thresholds) (name : String) : Option ℚ :=
  (ths.find? (fun p => p.1 == name)).map (fun p => p.2)

/-- The `METRIC_DESCRIPTIONS` literal assigned at app.py lines 44-51 (this
second assignment overwrites the one imported from `config` at line 35, so
it is the one the report uses). -/
def METRIC_DESCRIPTIONS : List (String × String) :=
  [("SRMR", "Technical measurement of reverberation and room acoustics"),
   ("SIGMOS_DISC", "Audio continuity and smoothness"),
   ("VQScore", "Overall voice quality assessment"),
   ("WVMOS", "Predicted subjective quality rating"),
   ("SIGMOS_OVRL", "Comprehensive overall audio quality"),
   ("SIGMOS_REVERB", "Perceived reverberation quality")]

/-- `METRIC_DESCRIPTIONS.get(metric_name, "")` (app.py line 128). -/
def descriptionOf (name : String) : String :=
  ((METRIC_DESCRIPTIONS.find? (fun p => p.1 == name)).map (fun p => p.2)).getD ""

/-- Round `a / b` (with `b > 0`) to the nearest integer, ties to even, as
Python's builtin `round` does: `f` is the floor, `2*(a - f*b)` compares the
fractional part against one half. -/
def roundTiesEven (a b : ℤ) : ℤ :=
  let f := Int.fdiv a b
  let r2 := 2 * (a - f * b)
  if r2 < b then f
  else if b < r2 then f + 1
  else if f % 2 = 0 then f else f + 1

/-- Python's `round(score, 3)` (app.py line 130): round to 3 decimal places,
ties to even, i.e. the nearest multiple of 1/1000 of
`1000 * q = (1000 * q.num) / q.den`. -/
def round3 (q : ℚ) : ℚ := mkRat (roundTiesEven (1000 * q.num) (q.den : ℤ)) 1000

/-- The status expression at app.py line 124:
`"PASS" if score is not None and score >= threshold else "FAIL"`.
When `score` is `None` the `and` short-circuits and the status is `FAIL`
whatever the threshold is.  When `score` is a float and `threshold` is
`None` (name absent from `THRESHOLDS`), evaluating `score >= threshold`
raises `TypeError`, modelled by `Except.error`. -/
def statusOf (score : Option ℚ) (threshold : Option ℚ) : Except String String :=
  match score with
  | none => Except.ok "FAIL"
  | some s =>
    match threshold with
    | none => Except.error "TypeError: >= not supported between float and NoneType"
    | some t => Except.ok (if t ≤ s then "PASS" else "FAIL")

/-- One row of `final_rows` (app.py lines 126-132).  `score` holds the
already-rounded value (`round(score, 3)`), as in the source. -/
structure Row where
  metric : String
  description : String
  threshold : Option ℚ
  score : Option ℚ
  result : String
deriving DecidableEq, Repr

/-- Building one entry of `final_rows` from one entry of `results`
(app.py lines 119-132): threshold lookup, status expression (which can
raise), description lookup with default `""`, score rounding. -/
def mkRow (ths : Thresholds) (name : String) (score : Option ℚ) : Except String Row :=
  match statusOf score (lookupThreshold ths name) with
  | Except.error e => Except.error e
  | Except.ok status =>
    Except.ok { metric := name
                description := descriptionOf name
                threshold := lookupThreshold ths name
                score := score.map round3
                result := status }

/-- The `for item in results` loop building `final_rows` (app.py lines
118-132).  An exception at any row propagates (the partially built list is
discarded, as in Python). -/
def buildRows (ths : Thresholds) : List (String × Option ℚ) → Except String (List Row)
  | [] => Except.ok []
  | (name, score) :: rest =>
    match mkRow ths name score with
    | Except.error e => Except.error e
    | Except.ok row =>
      match buildRows ths rest with
      | Except.error e => Except.error e
      | Except.ok rows => Except.ok (row :: rows)

/-- Outcome of the analysis `try` block: either `final_rows` was built
(Complete) or some exception was caught at line 170 (Failed). -/
inductive Outcome where
  | complete (rows : List Row)
  | failed (msg : String)
deriving DecidableEq, Repr

/-- Result of running the analysis pipeline, together with the list of
runners that were actually invoked, in invocation order. -/
structure AnalysisResult where
  outcome : Outcome
  invoked : List String
deriving DecidableEq, Repr

deriving instance DecidableEq for Except

/-- The behaviours of the four metric runners on the uploaded file: each
either returns (SigMOS returns a mapping of sub-metric names to scores,
the others a single optional score) or raises with a message. -/
structure Runners where
  srmr : Except String (Option ℚ)
  sigmos : Except String (List (String × Option ℚ))
  vqscore : Except String (Option ℚ)
  wvmos : Except String (Option ℚ)
deriving DecidableEq, Repr

/-- The four runner names in invocation order (app.py lines 89-113). -/
def runnerNames : List String := ["SRMR", "SigMOS", "VQScore", "WVMOS"]

/-- The `results` list after all four runners returned (app.py lines
92-112): the SRMR row, then — only if `scores_sigmos` is truthy, i.e. the
mapping is non-empty (`if scores_sigmos:` at line 98) — one entry per
SigMOS sub-metric in mapping order, then VQScore, then WVMOS. -/
def resultsList (sS : Option ℚ) (sigs : List (String × Option ℚ))
    (sV sW : Option ℚ) : List (String × Option ℚ) :=
  ("SRMR", sS) :: (if sigs.isEmpty then [] else sigs)
    ++ [("VQScore", sV), ("WVMOS", sW)]

/-- The body of the `try` block (app.py lines 76-168): the four runners are
invoked sequentially; the first exception aborts the rest (later runners
are not invoked) and is caught by the top-level handler; if all four
return, `final_rows` is built (which can itself raise on a missing
threshold). -/
def runAnalysis (r : Runners) (ths : Thresholds) : AnalysisResult :=
  match r.srmr with
  | Except.error e => ⟨Outcome.failed e, ["SRMR"]⟩
  | Except.ok sS =>
    match r.sigmos with
    | Except.error e => ⟨Outcome.failed e, ["SRMR", "SigMOS"]⟩
    | Except.ok sigs =>
      match r.vqscore with
      | Except.error e => ⟨Outcome.failed e, ["SRMR", "SigMOS", "VQScore"]⟩
      | Except.ok sV =>
        match r.wvmos with
        | Except.error e =>
          ⟨Outcome.failed e, ["SRMR", "SigMOS", "VQScore", "WVMOS"]⟩
        | Except.ok sW =>
          match buildRows ths (resultsList sS sigs sV sW) with
          | Except.error e => ⟨Outcome.failed e, runnerNames⟩
          | Except.ok rows => ⟨Outcome.complete rows, runnerNames⟩

/-- The summary metrics shown at app.py lines 140-145: `total_count` is the
number of rows of `df_results`, `pass_count` the number of rows whose
Result equals `PASS`, and the Failed metric is `total_count - pass_count`. -/
structure Summary where
  total : Nat
  passed : Nat
  failed : Nat
deriving DecidableEq, Repr

/-- Computing the summary from the report rows (app.py lines 140-145). -/
def summaryOf (rows : List Row) : Summary :=
  let pass := (rows.filter (fun row => row.result == "PASS")).length
  let total := rows.length
  ⟨total, pass, total - pass⟩

/-- A cell of the exported CSV: a string field, a numeric field, or an
empty field for `None`/`NaN`. -/
inductive Cell where
  | str (s : String)
  | num (q : ℚ)
  | null
deriving DecidableEq, Repr

/-- Rendering an optional numeric value into a CSV cell. -/
def cellOfOpt : Option ℚ → Cell
  | none => Cell.null
  | some q => Cell.num q

/-- The CSV header produced by `df_results.to_csv(index=False)`: the column
names of `final_rows` in construction order (app.py lines 126-132). -/
def csvHeader : List String :=
  ["Metric", "Description", "Your Threshold", "Score", "Result"]

/-- One CSV data row from one report row, in column order. -/
def rowCells (row : Row) : List Cell :=
  [Cell.str row.metric, Cell.str row.description,
   cellOfOpt row.threshold, cellOfOpt row.score, Cell.str row.result]

/-- Rendering one cell to text.  None of the fields produced by this app
contain commas, quotes or newlines, so no quoting is needed; numeric cells
are rendered by the rational's canonical textual form (the exact digit
format of pandas is abstracted, but the rendering is a fixed function, so
equal cells give equal text). -/
def renderCell : Cell → String
  | Cell.str s => s
  | Cell.num q => toString q
  | Cell.null => ""

/-- `df_results.to_csv(index=False)` (app.py line 161): header line then one
line per row, comma-separated, with a trailing newline. -/
def csvString (rows : List Row) : String :=
  String.intercalate "\n"
    (String.intercalate "," csvHeader
      :: rows.map (fun row => String.intercalate "," ((rowCells row).map renderCell)))
  ++ "\n"

/-- The download offered by `st.download_button` (app.py lines 162-168):
fixed filename, MIME type, the UTF-8 encoding applied at line 161, and the
CSV text. -/
structure Download where
  filename : String
  mime : String
  encoding : String
  content : String
deriving DecidableEq, Repr

/-- What one Streamlit script run leaves behind: the temporary path written
by the upload handler (if any), whether that file still exists on disk when
the run ends, the report table and summary (if rendered), the CSV download
(if offered), the error message (if the top-level handler fired), and
whether a traceback was rendered with it (`st.code(traceback.format_exc())`
at line 173). -/
structure ScriptResult where
  tempPath : Option String
  tempExistsAfter : Bool
  reportShown : Option (List Row × Summary)
  download : Option Download
  errorShown : Option String
  traceShown : Bool
deriving DecidableEq, Repr

/-- One top-to-bottom run of the script body below the uploader (app.py
lines 62-178).  If a file is uploaded, its bytes are written to a fresh
temporary path (`delete=False`, line 64).  Only if the Run Analysis button
was pressed does the `try/except/finally` run: the `finally` block removes
the temporary file on every path, the `except` block renders the error and
traceback, and on success the summary, the styled table and the CSV
download are rendered.  If the button was not pressed, the script ends
right after writing the temporary file, which therefore stays on disk. -/
def runScript (uploaded buttonPressed : Bool) (r : Runners) (ths : Thresholds)
    (tmpPath : String) : ScriptResult :=
  if uploaded then
    if buttonPressed then
      match runAnalysis r ths with
      | ⟨Outcome.failed msg, _⟩ =>
        { tempPath := some tmpPath
          tempExistsAfter := false
          reportShown := none
          download := none
          errorShown := some msg
          traceShown := true }
      | ⟨Outcome.complete rows, _⟩ =>
        { tempPath := some tmpPath
          tempExistsAfter := false
          reportShown := some (rows, summaryOf rows)
          download := some { filename := "audio_analysis_report.csv"
                             mime := "text/csv"
                             encoding := "utf-8"
                             content := csvString rows }
          errorShown := none
          traceShown := false }
    else
      { tempPath := some tmpPath
        tempExistsAfter := true
        reportShown := none
        download := none
        errorShown := none
        traceShown := false }
  else
    { tempPath := none
      tempExistsAfter := false
      reportShown := none
      download := none
      errorShown := none
      traceShown := false }

/-! ### Helper lemmas -/

/-- A successfully built report row has exactly the fields the loop body
assigns: the metric name, the looked-up description and threshold, the
rounded score, and the result of the status expression. -/
theorem mkRow_ok_fields (ths : Thresholds) (name : String) (score : Option ℚ)
    (row : Row) (h : mkRow ths name score = Except.ok row) :
    row.metric = name
    ∧ row.description = descriptionOf name
    ∧ row.threshold = lookupThreshold ths name
    ∧ row.score = score.map round3
    ∧ statusOf score (lookupThreshold ths name) = Except.ok row.result := by
  unfold mkRow at h
  cases hst : statusOf score (lookupThreshold ths name) with
  | error e => rw [hst] at h; simp at h
  | ok st =>
    rw [hst] at h
    simp only [Except.ok.injEq] at h
    subst h
    exact ⟨rfl, rfl, rfl, rfl, rfl⟩

/-- The rows built from the `results` list correspond one-to-one, in order,
to its entries: same metric name and the row's score is the rounded raw
score. -/
theorem buildRows_ok_forall2 (ths : Thresholds) :
    ∀ (inp : List (String × Option ℚ)) (rows : List Row),
      buildRows ths inp = Except.ok rows →
      List.Forall₂
        (fun it row => Row.metric row = it.1 ∧ Row.score row = Option.map round3 it.2)
        inp rows := by
  intro inp
  induction inp with
  | nil =>
    intro rows h
    simp only [buildRows, Except.ok.injEq] at h
    subst h
    exact List.Forall₂.nil
  | cons p rest ih =>
    intro rows h
    obtain ⟨name, score⟩ := p
    simp only [buildRows] at h
    cases hm : mkRow ths name score with
    | error e => rw [hm] at h; simp at h
    | ok row =>
      rw [hm] at h
      cases hb : buildRows ths rest with
      | error e => rw [hb] at h; simp at h
      | ok rows2 =>
        rw [hb] at h
        simp only [Except.ok.injEq] at h
        subst h
        have hf := mkRow_ok_fields ths name score row hm
        exact List.Forall₂.cons ⟨hf.1, hf.2.2.2.1⟩ (ih rows2 hb)

/-- From the metric-name component of the correspondence: the report's
metric column equals the first components of the `results` list. -/
theorem forall2_metric_map (inp : List (String × Option ℚ)) (rows : List Row)
    (hf : List.Forall₂
      (fun it row => Row.metric row = it.1 ∧ Row.score row = Option.map round3 it.2)
      inp rows) :
    rows.map Row.metric = inp.map Prod.fst := by
  induction hf with
  | nil => rfl
  | cons h _ ih => simp only [List.map_cons, h.1, ih]

/-- The metric names of the `results` list, in order: the `if scores_sigmos`
guard is a no-op at the level of names since an empty mapping contributes
no entries either way. -/
theorem resultsList_map_fst (sS : Option ℚ) (sigs : List (String × Option ℚ))
    (sV sW : Option ℚ) :
    (resultsList sS sigs sV sW).map Prod.fst
      = "SRMR" :: sigs.map Prod.fst ++ ["VQScore", "WVMOS"] := by
  cases sigs <;> simp [resultsList]

/-- A completed analysis means all four runners returned and the row-building
loop succeeded on the `results` list; the invoked list is then all four
runner names. -/
theorem runAnalysis_complete_elim (r : Runners) (ths : Thresholds)
    (rows : List Row) (inv : List String)
    (h : runAnalysis r ths = ⟨Outcome.complete rows, inv⟩) :
    ∃ sS sigs sV sW,
      r = ⟨Except.ok sS, Except.ok sigs, Except.ok sV, Except.ok sW⟩
      ∧ buildRows ths (resultsList sS sigs sV sW) = Except.ok rows
      ∧ inv = runnerNames := by
  obtain ⟨ra, rb, rc, rd⟩ := r
  cases ra with
  | error e => simp [runAnalysis] at h
  | ok sS =>
    cases rb with
    | error e => simp [runAnalysis] at h
    | ok sigs =>
      cases rc with
      | error e => simp [runAnalysis] at h
      | ok sV =>
        cases rd with
        | error e => simp [runAnalysis] at h
        | ok sW =>
          cases hb : buildRows ths (resultsList sS sigs sV sW) with
          | error e => simp [runAnalysis, hb] at h
          | ok rows2 =>
            simp [runAnalysis, hb] at h
            exact ⟨sS, sigs, sV, sW, rfl, by rw [hb, h.1], h.2.symm⟩

/-! ### Claim theorems -/

/-- C1, counterexample to the claim as stated: for a produced score with no
threshold in the table, the status expression does not evaluate to `FAIL`;
it raises a `TypeError` (which the top-level handler then surfaces as an
error), so a missing threshold is not silently treated as fail. -/
theorem c1_counterexample :
    statusOf (some 1) none
      = Except.error "TypeError: >= not supported between float and NoneType"
    ∧ statusOf (some 1) none ≠ Except.ok "FAIL"
    ∧ mkRow [] "SRMR" (some 1)
      = Except.error "TypeError: >= not supported between float and NoneType" := by
  decide

/-- C1 (amended): a row of the report has status `PASS` iff its score is
present, a threshold for its metric name is present, and score ≥ threshold;
an absent score forces `FAIL`; but a present score with an absent threshold
never yields a row at all — the status expression raises, so that case is
surfaced through the top-level error handler rather than silently marked
fail. -/
theorem c1_row_status_characterization (ths : Thresholds) (name : String)
    (score : Option ℚ) (row : Row)
    (h : mkRow ths name score = Except.ok row) :
    (row.result = "PASS"
      ↔ ∃ s t, score = some s ∧ lookupThreshold ths name = some t ∧ t ≤ s)
    ∧ (row.result = "FAIL"
      ↔ score = none
        ∨ ∃ s t, score = some s ∧ lookupThreshold ths name = some t ∧ s < t)
    ∧ ¬(score ≠ none ∧ lookupThreshold ths name = none) := by
  have hf := mkRow_ok_fields ths name score row h
  have hst := hf.2.2.2.2
  cases score with
  | none =>
    have hr : row.result = "FAIL" := by
      simp [statusOf] at hst
      exact hst.symm
    refine ⟨?_, ?_, ?_⟩
    · simp [hr]
    · simp [hr]
    · simp
  | some s =>
    cases hlt : lookupThreshold ths name with
    | none => rw [hlt] at hst; simp [statusOf] at hst
    | some t =>
      rw [hlt] at hst
      simp only [statusOf] at hst
      by_cases hts : t ≤ s
      · rw [if_pos hts] at hst
        have hr : row.result = "PASS" := by
          simp only [Except.ok.injEq] at hst
          exact hst.symm
        refine ⟨?_, ?_, ?_⟩
        · simp [hr, hts]
        · have hnlt : ¬s < t := not_lt.mpr hts
          simp [hr, hnlt]
        · simp
      · rw [if_neg hts] at hst
        have hr : row.result = "FAIL" := by
          simp only [Except.ok.injEq] at hst
          exact hst.symm
        have hlt2 : s < t := not_le.mp hts
        refine ⟨?_, ?_, ?_⟩
        · simp [hr, hts]
        · simp [hr, hlt2]
        · simp

/-- Witness for C1 at a concrete input: SRMR score 9.5 against threshold 8
gives a `PASS` row. -/
theorem c1_witness :
    (({ metric := "SRMR"
        description := "Technical measurement of reverberation and room acoustics"
        threshold := some 8
        score := some (mkRat 19 2)
        result := "PASS" } : Row).result = "PASS"
      ↔ ∃ s t, (some (mkRat 19 2)) = some s
          ∧ lookupThreshold [("SRMR", (8 : ℚ))] "SRMR" = some t ∧ t ≤ s)
    ∧ (({ metric := "SRMR"
          description := "Technical measurement of reverberation and room acoustics"
          threshold := some 8
          score := some (mkRat 19 2)
          result := "PASS" } : Row).result = "FAIL"
      ↔ (some (mkRat 19 2)) = none
        ∨ ∃ s t, (some (mkRat 19 2)) = some s
            ∧ lookupThreshold [("SRMR", (8 : ℚ))] "SRMR" = some t ∧ s < t)
    ∧ ¬((some (mkRat 19 2)) ≠ none
        ∧ lookupThreshold [("SRMR", (8 : ℚ))] "SRMR" = none) :=
  c1_row_status_characterization [("SRMR", (8 : ℚ))] "SRMR" (some (mkRat 19 2))
    { metric := "SRMR"
      description := "Technical measurement of reverberation and room acoustics"
      threshold := some 8
      score := some (mkRat 19 2)
      result := "PASS" } (by decide)

/-- C2, counterexample to the claim as stated: uploading a file and never
pressing Run Analysis generates no report, but the temporary file written
by the upload handler (created with `delete=False`, and only removed in the
`finally` block inside the button branch) is still on disk when the script
run ends. -/
theorem c2_counterexample :
    (runScript true false
        ⟨Except.ok none, Except.ok [], Except.ok none, Except.ok none⟩ []
        "upload_tmp.wav").reportShown = none
    ∧ (runScript true false
        ⟨Except.ok none, Except.ok [], Except.ok none, Except.ok none⟩ []
        "upload_tmp.wav").tempExistsAfter = true := by
  decide

/-- C2 (amended): if a file is uploaded and the user never presses the Run
Analysis control, no report is generated, no download and no error are
shown — but the temporary file written on upload is retained on disk,
because the cleanup only runs inside the analysis branch. -/
theorem c2_cancel_no_report_temp_retained (r : Runners) (ths : Thresholds)
    (p : String) :
    (runScript true false r ths p).reportShown = none
    ∧ (runScript true false r ths p).download = none
    ∧ (runScript true false r ths p).errorShown = none
    ∧ (runScript true false r ths p).tempPath = some p
    ∧ (runScript true false r ths p).tempExistsAfter = true :=
  ⟨rfl, rfl, rfl, rfl, rfl⟩

/-- C3: once the analysis run is triggered, the temporary file is removed on
every exit path — both when the analysis completes and when it fails. -/
theorem c3_temp_removed_after_run (r : Runners) (ths : Thresholds) (p : String) :
    (runScript true true r ths p).tempExistsAfter = false := by
  rcases hA : runAnalysis r ths with ⟨o, inv⟩
  cases o <;> simp [runScript, hA]

/-- C4: if any one runner raises, the whole analysis aborts at that runner:
the runners after it are not invoked, no report and no CSV download are
offered, and a single error message with the traceback is displayed (the
temporary file is still removed, per the script result). -/
theorem c4_runner_exception_aborts (r : Runners) (ths : Thresholds)
    (p msg : String) :
    (r.srmr = Except.error msg →
      runAnalysis r ths = ⟨Outcome.failed msg, ["SRMR"]⟩
      ∧ runScript true true r ths p = ⟨some p, false, none, none, some msg, true⟩)
    ∧ (∀ sS, r.srmr = Except.ok sS → r.sigmos = Except.error msg →
      runAnalysis r ths = ⟨Outcome.failed msg, ["SRMR", "SigMOS"]⟩
      ∧ runScript true true r ths p = ⟨some p, false, none, none, some msg, true⟩)
    ∧ (∀ sS sigs, r.srmr = Except.ok sS → r.sigmos = Except.ok sigs →
        r.vqscore = Except.error msg →
      runAnalysis r ths = ⟨Outcome.failed msg, ["SRMR", "SigMOS", "VQScore"]⟩
      ∧ runScript true true r ths p = ⟨some p, false, none, none, some msg, true⟩)
    ∧ (∀ sS sigs sV, r.srmr = Except.ok sS → r.sigmos = Except.ok sigs →
        r.vqscore = Except.ok sV → r.wvmos = Except.error msg →
      runAnalysis r ths
        = ⟨Outcome.failed msg, ["SRMR", "SigMOS", "VQScore", "WVMOS"]⟩
      ∧ runScript true true r ths p = ⟨some p, false, none, none, some msg, true⟩) := by
  refine ⟨?_, ?_, ?_, ?_⟩
  · intro h1
    have hA : runAnalysis r ths = ⟨Outcome.failed msg, ["SRMR"]⟩ := by
      simp [runAnalysis, h1]
    exact ⟨hA, by simp [runScript, hA]⟩
  · intro sS h1 h2
    have hA : runAnalysis r ths = ⟨Outcome.failed msg, ["SRMR", "SigMOS"]⟩ := by
      simp [runAnalysis, h1, h2]
    exact ⟨hA, by simp [runScript, hA]⟩
  · intro sS sigs h1 h2 h3
    have hA : runAnalysis r ths
        = ⟨Outcome.failed msg, ["SRMR", "SigMOS", "VQScore"]⟩ := by
      simp [runAnalysis, h1, h2, h3]
    exact ⟨hA, by simp [runScript, hA]⟩
  · intro sS sigs sV h1 h2 h3 h4
    have hA : runAnalysis r ths
        = ⟨Outcome.failed msg, ["SRMR", "SigMOS", "VQScore", "WVMOS"]⟩ := by
      simp [runAnalysis, h1, h2, h3, h4]
    exact ⟨hA, by simp [runScript, hA]⟩

/-- Witness for C4 at a concrete input: SigMOS raises `"boom"`, so only SRMR
and SigMOS were invoked, the outcome is Failed, and the script shows the
error with traceback, no report, no download, and the temp file removed. -/
theorem c4_witness :
    runAnalysis
        ⟨Except.ok (some 1), Except.error "boom", Except.ok none, Except.ok none⟩ []
      = ⟨Outcome.failed "boom", ["SRMR", "SigMOS"]⟩
    ∧ runScript true true
        ⟨Except.ok (some 1), Except.error "boom", Except.ok none, Except.ok none⟩ []
        "run_tmp.wav"
      = ⟨some "run_tmp.wav", false, none, none, some "boom", true⟩ :=
  (c4_runner_exception_aborts
    ⟨Except.ok (some 1), Except.error "boom", Except.ok none, Except.ok none⟩ []
    "run_tmp.wav" "boom").2.1 (some 1) rfl rfl

/-- The runner outputs of the spec's worked example: SRMR 9.5, a SigMOS
mapping containing SIGMOS_OVRL 3.2, VQScore 0.55, WVMOS 3.0. -/
def c5Runners : Runners :=
  ⟨Except.ok (some (mkRat 19 2)),
   Except.ok [("SIGMOS_OVRL", some (mkRat 16 5))],
   Except.ok (some (mkRat 11 20)),
   Except.ok (some 3)⟩

/-- The thresholds of the spec's worked example: SRMR 8.0, SIGMOS_OVRL 3.0,
VQScore 0.6, WVMOS 2.5. -/
def c5Thresholds : Thresholds :=
  [("SRMR", 8), ("SIGMOS_OVRL", 3), ("VQScore", mkRat 3 5), ("WVMOS", mkRat 5 2)]

/-- The report rows the example run produces. -/
def c5Rows : List Row :=
  [{ metric := "SRMR"
     description := "Technical measurement of reverberation and room acoustics"
     threshold := some 8, score := some (mkRat 19 2), result := "PASS" },
   { metric := "SIGMOS_OVRL"
     description := "Comprehensive overall audio quality"
     threshold := some 3, score := some (mkRat 16 5), result := "PASS" },
   { metric := "VQScore"
     description := "Overall voice quality assessment"
     threshold := some (mkRat 3 5), score := some (mkRat 11 20), result := "FAIL" },
   { metric := "WVMOS"
     description := "Predicted subjective quality rating"
     threshold := some (mkRat 5 2), score := some 3, result := "PASS" }]

/-- C5: for SRMR=9.5 (threshold 8.0), SIGMOS_OVRL=3.2 (threshold 3.0),
VQScore=0.55 (threshold 0.6), WVMOS=3.0 (threshold 2.5), the computed
statuses are PASS, PASS, FAIL, PASS and the summary counts are Total=4,
Passed=3, Failed=1. -/
theorem c5_example_report :
    runAnalysis c5Runners c5Thresholds = ⟨Outcome.complete c5Rows, runnerNames⟩
    ∧ c5Rows.map Row.result = ["PASS", "PASS", "FAIL", "PASS"]
    ∧ summaryOf c5Rows = ⟨4, 3, 1⟩ := by
  decide

/-- C6: the report generation is deterministic in the runner outputs and the
thresholds — two script runs with identical runner outputs offer identical
CSV download content (the temporary path chosen for the upload, the only
other varying input, does not influence it), hence byte-identical CSV
files. -/
theorem c6_csv_deterministic (u b : Bool) (r : Runners) (ths : Thresholds)
    (p1 p2 : String) :
    (runScript u b r ths p1).download = (runScript u b r ths p2).download := by
  cases u with
  | false => rfl
  | true =>
    cases b with
    | false => rfl
    | true =>
      rcases hA : runAnalysis r ths with ⟨o, inv⟩
      cases o <;> simp [runScript, hA]

/-- C7: for any completed run the CSV download has the fixed filename
`audio_analysis_report.csv`, is UTF-8 encoded, its content is generated
from the report rows under the header
`Metric, Description, Your Threshold, Score, Result`, and the Score value
of every row is the raw runner score rounded to 3 decimal places (the same
rounded value that is displayed), not the raw unrounded score. -/
theorem c7_csv_export (r : Runners) (ths : Thresholds) (p : String)
    (rows : List Row) (s : Summary)
    (h : (runScript true true r ths p).reportShown = some (rows, s)) :
    (runScript true true r ths p).download
      = some { filename := "audio_analysis_report.csv"
               mime := "text/csv"
               encoding := "utf-8"
               content := csvString rows }
    ∧ csvHeader = ["Metric", "Description", "Your Threshold", "Score", "Result"]
    ∧ ∃ sS sigs sV sW,
        r = ⟨Except.ok sS, Except.ok sigs, Except.ok sV, Except.ok sW⟩
        ∧ List.Forall₂
            (fun it row => Row.metric row = it.1 ∧ Row.score row = Option.map round3 it.2)
            (resultsList sS sigs sV sW) rows := by
  rcases hA : runAnalysis r ths with ⟨o, inv⟩
  cases o with
  | failed msg => simp [runScript, hA] at h
  | complete rows2 =>
    have hre : rows2 = rows ∧ summaryOf rows2 = s := by
      simpa [runScript, hA] using h
    obtain ⟨h1, h2⟩ := hre
    subst h1
    obtain ⟨sS, sigs, sV, sW, hr2, hb, hinv⟩ :=
      runAnalysis_complete_elim r ths rows2 inv hA
    exact ⟨by simp [runScript, hA], rfl,
      sS, sigs, sV, sW, hr2, buildRows_ok_forall2 ths _ _ hb⟩

/-- Concrete runners for the C7 witness: all three single-score runners
return 1, SigMOS returns an empty mapping. -/
def c7Runners : Runners :=
  ⟨Except.ok (some 1), Except.ok [], Except.ok (some 1), Except.ok (some 1)⟩

/-- Thresholds for the C7 witness. -/
def c7Thresholds : Thresholds :=
  [("SRMR", 1), ("VQScore", 1), ("WVMOS", 1)]

/-- The rows the C7 witness run produces. -/
def c7Rows : List Row :=
  [{ metric := "SRMR"
     description := "Technical measurement of reverberation and room acoustics"
     threshold := some 1, score := some 1, result := "PASS" },
   { metric := "VQScore"
     description := "Overall voice quality assessment"
     threshold := some 1, score := some 1, result := "PASS" },
   { metric := "WVMOS"
     description := "Predicted subjective quality rating"
     threshold := some 1, score := some 1, result := "PASS" }]

/-- Witness for C7 at a concrete completed run. -/
theorem c7_witness :
    (runScript true true c7Runners c7Thresholds "tmp7.wav").download
      = some { filename := "audio_analysis_report.csv"
               mime := "text/csv"
               encoding := "utf-8"
               content := csvString c7Rows } :=
  (c7_csv_export c7Runners c7Thresholds "tmp7.wav" c7Rows ⟨3, 3, 0⟩ (by decide)).1

/-- C8: on a completed run the report rows appear in the invocation order of
the runners — the SRMR row first, then one row per SigMOS sub-metric in the
order of the returned mapping, then VQScore, then WVMOS. -/
theorem c8_row_order (sS : Option ℚ) (sigs : List (String × Option ℚ))
    (sV sW : Option ℚ) (ths : Thresholds) (rows : List Row) (inv : List String)
    (h : runAnalysis ⟨Except.ok sS, Except.ok sigs, Except.ok sV, Except.ok sW⟩ ths
          = ⟨Outcome.complete rows, inv⟩) :
    rows.map Row.metric = "SRMR" :: sigs.map Prod.fst ++ ["VQScore", "WVMOS"] := by
  obtain ⟨sS2, sigs2, sV2, sW2, hr2, hb, hinv⟩ :=
    runAnalysis_complete_elim _ ths rows inv h
  have he : sS = sS2 ∧ sigs = sigs2 ∧ sV = sV2 ∧ sW = sW2 := by
    simpa [Runners.mk.injEq] using hr2
  obtain ⟨e1, e2, e3, e4⟩ := he
  subst e1
  subst e2
  subst e3
  subst e4
  calc rows.map Row.metric
      = (resultsList sS sigs sV sW).map Prod.fst :=
        forall2_metric_map _ _ (buildRows_ok_forall2 ths _ _ hb)
    _ = "SRMR" :: sigs.map Prod.fst ++ ["VQScore", "WVMOS"] :=
        resultsList_map_fst sS sigs sV sW

/-- The rows of the C8 witness run: no thresholds configured and no scores
returned, so every row is a FAIL row. -/
def c8Rows : List Row :=
  [{ metric := "SRMR"
     description := "Technical measurement of reverberation and room acoustics"
     threshold := none, score := none, result := "FAIL" },
   { metric := "SIGMOS_OVRL"
     description := "Comprehensive overall audio quality"
     threshold := none, score := none, result := "FAIL" },
   { metric := "VQScore"
     description := "Overall voice quality assessment"
     threshold := none, score := none, result := "FAIL" },
   { metric := "WVMOS"
     description := "Predicted subjective quality rating"
     threshold := none, score := none, result := "FAIL" }]

/-- Witness for C8 at a concrete run with one SigMOS sub-metric. -/
theorem c8_witness :
    c8Rows.map Row.metric
      = "SRMR" :: ([("SIGMOS_OVRL", (none : Option ℚ))].map Prod.fst)
          ++ ["VQScore", "WVMOS"] :=
  c8_row_order none [("SIGMOS_OVRL", none)] none none [] c8Rows runnerNames
    (by decide)

/-- C9: if the SigMOS runner returns an empty (falsy) mapping, no SigMOS
rows are appended: provided the three remaining status computations return
(rather than raise), the run completes with exactly the SRMR, VQScore and
WVMOS rows — three rows — and no error is surfaced. -/
theorem c9_empty_sigmos_three_rows (sS sV sW : Option ℚ) (ths : Thresholds)
    (p : String) (stS stV stW : String)
    (hS : statusOf sS (lookupThreshold ths "SRMR") = Except.ok stS)
    (hV : statusOf sV (lookupThreshold ths "VQScore") = Except.ok stV)
    (hW : statusOf sW (lookupThreshold ths "WVMOS") = Except.ok stW) :
    runAnalysis ⟨Except.ok sS, Except.ok [], Except.ok sV, Except.ok sW⟩ ths
      = ⟨Outcome.complete
          [{ metric := "SRMR", description := descriptionOf "SRMR"
             threshold := lookupThreshold ths "SRMR"
             score := sS.map round3, result := stS },
           { metric := "VQScore", description := descriptionOf "VQScore"
             threshold := lookupThreshold ths "VQScore"
             score := sV.map round3, result := stV },
           { metric := "WVMOS", description := descriptionOf "WVMOS"
             threshold := lookupThreshold ths "WVMOS"
             score := sW.map round3, result := stW }],
         runnerNames⟩
    ∧ (runScript true true ⟨Except.ok sS, Except.ok [], Except.ok sV, Except.ok sW⟩
        ths p).errorShown = none := by
  have hA : runAnalysis ⟨Except.ok sS, Except.ok [], Except.ok sV, Except.ok sW⟩ ths
      = ⟨Outcome.complete
          [{ metric := "SRMR", description := descriptionOf "SRMR"
             threshold := lookupThreshold ths "SRMR"
             score := sS.map round3, result := stS },
           { metric := "VQScore", description := descriptionOf "VQScore"
             threshold := lookupThreshold ths "VQScore"
             score := sV.map round3, result := stV },
           { metric := "WVMOS", description := descriptionOf "WVMOS"
             threshold := lookupThreshold ths "WVMOS"
             score := sW.map round3, result := stW }],
         runnerNames⟩ := by
    simp [runAnalysis, resultsList, buildRows, mkRow, hS, hV, hW]
  exact ⟨hA, by simp [runScript, hA]⟩

/-- Witness for C9 at a concrete input: no scores, no thresholds, empty
SigMOS mapping — three FAIL rows and no error. -/
theorem c9_witness :
    runAnalysis ⟨Except.ok none, Except.ok [], Except.ok none, Except.ok none⟩ []
      = ⟨Outcome.complete
          [{ metric := "SRMR", description := descriptionOf "SRMR"
             threshold := lookupThreshold [] "SRMR"
             score := Option.map round3 none, result := "FAIL" },
           { metric := "VQScore", description := descriptionOf "VQScore"
             threshold := lookupThreshold [] "VQScore"
             score := Option.map round3 none, result := "FAIL" },
           { metric := "WVMOS", description := descriptionOf "WVMOS"
             threshold := lookupThreshold [] "WVMOS"
             score := Option.map round3 none, result := "FAIL" }],
         runnerNames⟩
    ∧ (runScript true true ⟨Except.ok none, Except.ok [], Except.ok none, Except.ok none⟩
        [] "tmp9.wav").errorShown = none :=
  c9_empty_sigmos_three_rows none none none [] "tmp9.wav" "FAIL" "FAIL" "FAIL"
    rfl rfl rfl

/-- C10: for every completed run the summary counts satisfy
Passed + Failed = Total, Total is the number of report rows, Passed the
number of rows whose Result is PASS, and Failed is Total minus Passed. -/
theorem c10_summary_invariant (r : Runners) (ths : Thresholds) (p : String)
    (rows : List Row) (s : Summary)
    (h : (runScript true true r ths p).reportShown = some (rows, s)) :
    s.total = rows.length
    ∧ s.passed = (rows.filter (fun row => row.result == "PASS")).length
    ∧ s.failed = s.total - s.passed
    ∧ s.passed + s.failed = s.total := by
  rcases hA : runAnalysis r ths with ⟨o, inv⟩
  cases o with
  | failed msg => simp [runScript, hA] at h
  | complete rows2 =>
    have hre : rows2 = rows ∧ summaryOf rows2 = s := by
      simpa [runScript, hA] using h
    obtain ⟨h1, h2⟩ := hre
    subst h1
    subst h2
    have hle : (rows2.filter (fun row => row.result == "PASS")).length ≤ rows2.length :=
      List.length_filter_le _ _
    refine ⟨rfl, rfl, rfl, ?_⟩
    show (rows2.filter (fun row => row.result == "PASS")).length
        + (rows2.length - (rows2.filter (fun row => row.result == "PASS")).length)
        = rows2.length
    omega

/-- The rows of the C10 witness run. -/
def c10Rows : List Row :=
  [{ metric := "SRMR"
     description := "Technical measurement of reverberation and room acoustics"
     threshold := none, score := none, result := "FAIL" },
   { metric := "VQScore"
     description := "Overall voice quality assessment"
     threshold := none, score := none, result := "FAIL" },
   { metric := "WVMOS"
     description := "Predicted subjective quality rating"
     threshold := none, score := none, result := "FAIL" }]

/-- Witness for C10 at a concrete completed run: 3 rows, 0 passed,
3 failed. -/
theorem c10_witness :
    (⟨3, 0, 3⟩ : Summary).total = c10Rows.length
    ∧ (⟨3, 0, 3⟩ : Summary).passed
        = (c10Rows.filter (fun row => row.result == "PASS")).length
    ∧ (⟨3, 0, 3⟩ : Summary).failed
        = (⟨3, 0, 3⟩ : Summary).total - (⟨3, 0, 3⟩ : Summary).passed
    ∧ (⟨3, 0, 3⟩ : Summary).passed + (⟨3, 0, 3⟩ : Summary).failed
        = (⟨3, 0, 3⟩ : Summary).total :=
  c10_summary_invariant
    ⟨Except.ok none, Except.ok [], Except.ok none, Except.ok none⟩ []
    "tmp10.wav" c10Rows ⟨3, 0, 3⟩ (by decide)

end TTSValidation
